import Mathlib

/-
Verification development for the libvirt-mcp VM provisioning and discovery
handlers (src/handlers.py). Each section shallowly embeds one part of the
Python source: pure string manipulation is translated onto `List Char`
(so every definition is executable and kernel-computable), stateful libvirt
and filesystem effects become explicit state passing over small world
records, and external collaborators (the hypervisor API, the network, the
shell tools, the Jinja2 template) are modelled as explicit inputs that an
invocation can observe, exactly at the boundary where the Python code
consumes them.
-/

set_option autoImplicit false

namespace LibvirtMcp

/-! ### Generic string machinery

Python string operations used by handlers.py (`str.lower`, `in`,
`str.startswith`, `"...".join`, `str.split`) are re-implemented over
`List Char` by structural recursion so that witnesses evaluate by `decide`.
Only ASCII case folding is needed (MAC addresses, arp output). -/

/-- ASCII lower-casing of one character, as `str.lower` acts on ASCII. -/
def lowerChar (c : Char) : Char :=
  if 'A' ≤ c ∧ c ≤ 'Z' then Char.ofNat (c.toNat + 32) else c

/-- Python `s.lower()` restricted to ASCII input. -/
def lowerStr (s : String) : String :=
  ⟨s.data.map lowerChar⟩

/-- Test whether the first list is a prefix of the second (Python `startswith`). -/
def isPfx : List Char → List Char → Bool
  | [], _ => true
  | _ :: _, [] => false
  | a :: as, b :: bs => a == b && isPfx as bs

/-- Occurrence of `pat` anywhere in `s` (Python `pat in s` on strings). -/
def hasSub (pat : List Char) : List Char → Bool
  | [] => isPfx pat []
  | c :: t => isPfx pat (c :: t) || hasSub pat t

/-- Python `pat in s` at the `String` level. -/
def inStr (pat s : String) : Bool :=
  hasSub pat.data s.data

/-- Python `s.startswith(pre)` at the `String` level. -/
def startsW (pre s : String) : Bool :=
  isPfx pre.data s.data

/-- Python `", ".join(l)`. -/
def joinComma : List String → String
  | [] => ""
  | [s] => s
  | s :: t => s ++ ", " ++ joinComma t

theorem isPfx_refl : ∀ l : List Char, isPfx l l = true := by
  intro l
  induction l with
  | nil => rfl
  | cons a t ih => simp [isPfx, ih]

theorem hasSub_refl (l : List Char) : hasSub l l = true := by
  cases l with
  | nil => rfl
  | cons a t => simp [hasSub, isPfx_refl]

theorem inStr_refl (s : String) : inStr s s = true :=
  hasSub_refl s.data

theorem data_append (s t : String) : (s ++ t).data = s.data ++ t.data := by
  cases s; cases t; rfl

theorem strAppend_assoc (a b c : String) : (a ++ b) ++ c = a ++ (b ++ c) := by
  cases a; cases b; cases c
  show String.mk _ = String.mk _
  rw [List.append_assoc]

/-- Two strings agreeing after a common prefix are distinguished by probing a
character position inside the differing suffixes. -/
theorem append_ne_append (p : String) {r s : String} (i : Nat)
    (h : r.data[i]? ≠ s.data[i]?) : p ++ r ≠ p ++ s := by
  intro he
  apply h
  have h2 := congrArg (fun t : String => t.data[p.data.length + i]?) he
  simp only [data_append] at h2
  rwa [List.getElem?_append_right (Nat.le_add_right _ _),
    List.getElem?_append_right (Nat.le_add_right _ _),
    Nat.add_sub_cancel_left] at h2

/-- Two strings are distinct when probing any fixed character position
distinguishes them. -/
theorem ne_of_probe {a b : String} (i : Nat)
    (h : a.data[i]? ≠ b.data[i]?) : a ≠ b := by
  intro he
  exact h (he ▸ rfl)

namespace Lifecycle

/-! ### VM lifecycle (src/handlers.py: `_start_vm`, `_stop_vm`,
`_is_vm_running`, `rename_vm`)

The hypervisor is modelled as the list of defined domains. A domain carries
its libvirt name, its running flag, and its XML configuration, split into
the text of the `<name>` element (`xmlName`, always present, as the code
assumes after its `name_elem is not None` check) and the remaining document
(`xmlRest`, opaque: `rename_vm` rewrites only the name element).
`connErr` / `lookupErr` / `createErr` / `stopErr` inject the `libvirtError`
texts that `libvirt.open`, `lookupByName`, `domain.create` and
`domain.shutdown`/`destroy` can raise (`none` meaning the call succeeds);
a successful graceful `shutdown` is modelled as the domain stopping. -/

/-- Domain record owned by the hypervisor. -/
structure Dom where
  name : String
  running : Bool
  xmlName : String
  xmlRest : String
deriving DecidableEq, Repr

/-- Hypervisor-side world state plus injected libvirt error behavior. -/
structure World where
  doms : List Dom
  connOk : Bool
  connErr : String
  lookupErr : String
  createErr : Option String
  stopErr : Option String
deriving DecidableEq, Repr

/-- Model of `conn.lookupByName` (libvirt names are unique keys). -/
def lookupByName (w : World) (n : String) : Option Dom :=
  w.doms.find? (fun d => d.name == n)

/-- Set the running flag of the domain named `n`. -/
def setRunning (w : World) (n : String) (b : Bool) : World :=
  { w with doms := w.doms.map (fun d => if d.name == n then { d with running := b } else d) }

/-- Model of `domain.undefine` for the domain named `n`. -/
def undefineDom (w : World) (n : String) : World :=
  { w with doms := w.doms.filter (fun d => !(d.name == n)) }

/-- Model of `conn.defineXML`: the new domain takes its name from the
document's name element and starts out stopped. -/
def defineXML (w : World) (xmlName xmlRest : String) : World :=
  { w with doms := w.doms ++ [⟨xmlName, false, xmlName, xmlRest⟩] }

/-- Model of the `_start_vm` helper: returns `(success, message)` and the
updated hypervisor state. -/
def _start_vm (w : World) (vm : String) : (Bool × String) × World :=
  if w.connOk then
    match lookupByName w vm with
    | none => ((false, "VM '" ++ vm ++ "' not found: " ++ w.lookupErr), w)
    | some d =>
      if d.running then ((false, "VM '" ++ vm ++ "' is already running"), w)
      else
        match w.createErr with
        | some e => ((false, "Failed to start VM '" ++ vm ++ "': " ++ e), w)
        | none => ((true, "OK"), setRunning w vm true)
  else ((false, "Libvirt error: " ++ w.connErr), w)

/-- Model of the `_stop_vm` helper. `force` selects `destroy` over
`shutdown`; both are modelled as stopping the domain, and the injected
`stopErr` covers the `libvirtError` branch of either call. -/
def _stop_vm (w : World) (vm : String) (force : Bool) : (Bool × String) × World :=
  if w.connOk then
    match lookupByName w vm with
    | none => ((false, "VM '" ++ vm ++ "' not found: " ++ w.lookupErr), w)
    | some d =>
      if d.running then
        match w.stopErr with
        | some e => ((false, "Failed to stop VM '" ++ vm ++ "': " ++ e), w)
        | none => ((true, "OK"), setRunning w vm false)
      else ((true, "OK"), w)
  else ((false, "Libvirt error: " ++ w.connErr), w)

/-- Model of the `_is_vm_running` helper: `(is_running, error_msg)`. -/
def _is_vm_running (w : World) (vm : String) : Bool × Option String :=
  if w.connOk then
    match lookupByName w vm with
    | none => (false, some ("VM '" ++ vm ++ "' not found: " ++ w.lookupErr))
    | some d => (d.running, none)
  else (false, some ("Libvirt error: " ++ w.connErr))

/-- Tail of `rename_vm` after the optional graceful stop: the collision
check on the new name, the name rewrite, undefine plus redefine, and the
conditional restart. Factored out of `rename_vm` because the source reaches
this straight-line block from both the was-running and the was-stopped
paths. The source binds intermediate results once; the model repeats the
pure calls, which is observationally identical. -/
def renameStep (w₁ : World) (old new xmlRest : String) (was_running : Bool) : String × World :=
  match lookupByName w₁ new with
  | some _ => ("VM with name '" ++ new ++ "' already exists", w₁)
  | none =>
    if was_running then
      if (_start_vm (defineXML (undefineDom w₁ old) new xmlRest) new).1.1 then
        ("OK", (_start_vm (defineXML (undefineDom w₁ old) new xmlRest) new).2)
      else
        ("VM renamed successfully but failed to restart: "
           ++ (_start_vm (defineXML (undefineDom w₁ old) new xmlRest) new).1.2,
         (_start_vm (defineXML (undefineDom w₁ old) new xmlRest) new).2)
    else ("OK", defineXML (undefineDom w₁ old) new xmlRest)

/-- Model of the `rename_vm` tool. It mirrors the source control flow:
look up the old domain, remember whether it was running, gracefully stop it
if so, only then run the collision check and the redefine via
`renameStep`. -/
def rename_vm (w : World) (old new : String) : String × World :=
  if w.connOk then
    match lookupByName w old with
    | none => ("VM '" ++ old ++ "' not found: " ++ w.lookupErr, w)
    | some dom =>
      match _is_vm_running w old with
      | (_, some e) => (e, w)
      | (was_running, none) =>
        if was_running then
          if (_stop_vm w old false).1.1 then
            renameStep (_stop_vm w old false).2 old new dom.xmlRest was_running
          else
            ("Failed to stop VM '" ++ old ++ "' for renaming: " ++ (_stop_vm w old false).1.2,
             (_stop_vm w old false).2)
        else renameStep w old new dom.xmlRest was_running
  else ("Libvirt error: " ++ w.connErr, w)

theorem alreadyRunning_ne_libvirtError (vm e : String) :
    "VM '" ++ vm ++ "' is already running" ≠ "Libvirt error: " ++ e := by
  apply LibvirtMcp.ne_of_probe 0
  simp only [LibvirtMcp.strAppend_assoc, LibvirtMcp.data_append]
  show some 'V' ≠ some 'L'
  decide

theorem alreadyRunning_ne_notFound (vm e : String) :
    "VM '" ++ vm ++ "' is already running" ≠ "VM '" ++ vm ++ "' not found: " ++ e := by
  have h2 : ("VM '" ++ vm) ++ "' is already running"
      ≠ ("VM '" ++ vm) ++ ("' not found: " ++ e) := by
    apply LibvirtMcp.append_ne_append _ 2
    rw [LibvirtMcp.data_append]
    show some 'i' ≠ some 'n'
    decide
  rw [← LibvirtMcp.strAppend_assoc] at h2
  exact h2

theorem alreadyRunning_ne_startFailed (vm e : String) :
    "VM '" ++ vm ++ "' is already running" ≠ "Failed to start VM '" ++ vm ++ "': " ++ e := by
  apply LibvirtMcp.ne_of_probe 0
  simp only [LibvirtMcp.strAppend_assoc, LibvirtMcp.data_append]
  show some 'V' ≠ some 'F'
  decide

theorem ok_ne_libvirtError (e : String) : ("OK" : String) ≠ "Libvirt error: " ++ e := by
  apply LibvirtMcp.ne_of_probe 0
  rw [LibvirtMcp.data_append]
  show some 'O' ≠ some 'L'
  decide

theorem ok_ne_notFound (vm e : String) :
    ("OK" : String) ≠ "VM '" ++ vm ++ "' not found: " ++ e := by
  apply LibvirtMcp.ne_of_probe 0
  simp only [LibvirtMcp.strAppend_assoc, LibvirtMcp.data_append]
  show some 'O' ≠ some 'V'
  decide

theorem ok_ne_stopFailed (vm e : String) :
    ("OK" : String) ≠ "Failed to stop VM '" ++ vm ++ "': " ++ e := by
  apply LibvirtMcp.ne_of_probe 0
  simp only [LibvirtMcp.strAppend_assoc, LibvirtMcp.data_append]
  show some 'O' ≠ some 'F'
  decide

/-- C6: stopping an already-stopped VM and starting an already-running VM are
non-fatal no-ops: for an existing domain, `_start_vm` on a running domain
returns exactly the already-running message and leaves the hypervisor state
unchanged, and `_stop_vm` on a stopped domain returns exactly `"OK"` and
leaves the state unchanged; in either case the reported string differs from
every true-error string the same helper can produce. -/
theorem claim6_stop_start_noops (w : World) (vm : String) (d : Dom) (force : Bool)
    (hc : w.connOk = true) (hd : lookupByName w vm = some d) :
    (d.running = true →
      _start_vm w vm = ((false, "VM '" ++ vm ++ "' is already running"), w)
      ∧ (∀ e, "VM '" ++ vm ++ "' is already running" ≠ "Libvirt error: " ++ e)
      ∧ (∀ e, "VM '" ++ vm ++ "' is already running" ≠ "VM '" ++ vm ++ "' not found: " ++ e)
      ∧ (∀ e, "VM '" ++ vm ++ "' is already running" ≠ "Failed to start VM '" ++ vm ++ "': " ++ e))
    ∧ (d.running = false →
      _stop_vm w vm force = ((true, "OK"), w)
      ∧ (∀ e, ("OK" : String) ≠ "Libvirt error: " ++ e)
      ∧ (∀ e, ("OK" : String) ≠ "VM '" ++ vm ++ "' not found: " ++ e)
      ∧ (∀ e, ("OK" : String) ≠ "Failed to stop VM '" ++ vm ++ "': " ++ e)) := by
  constructor
  · intro hr
    refine ⟨?_, fun e => alreadyRunning_ne_libvirtError vm e,
      fun e => alreadyRunning_ne_notFound vm e,
      fun e => alreadyRunning_ne_startFailed vm e⟩
    simp [_start_vm, hc, hd, hr]
  · intro hr
    refine ⟨?_, fun e => ok_ne_libvirtError e,
      fun e => ok_ne_notFound vm e,
      fun e => ok_ne_stopFailed vm e⟩
    simp [_stop_vm, hc, hd, hr]

theorem claim6_witness :
    _start_vm ⟨[⟨"web", true, "web", "x"⟩], true, "c", "l", none, none⟩ "web"
      = ((false, "VM 'web' is already running"), ⟨[⟨"web", true, "web", "x"⟩], true, "c", "l", none, none⟩)
    ∧ _stop_vm ⟨[⟨"db", false, "db", "y"⟩], true, "c", "l", none, none⟩ "db" false
      = ((true, "OK"), ⟨[⟨"db", false, "db", "y"⟩], true, "c", "l", none, none⟩) :=
  ⟨((claim6_stop_start_noops ⟨[⟨"web", true, "web", "x"⟩], true, "c", "l", none, none⟩
      "web" ⟨"web", true, "web", "x"⟩ false (by decide) (by decide)).1 (by decide)).1,
   ((claim6_stop_start_noops ⟨[⟨"db", false, "db", "y"⟩], true, "c", "l", none, none⟩
      "db" ⟨"db", false, "db", "y"⟩ false (by decide) (by decide)).2 (by decide)).1⟩

theorem lookup_setRunning (w : World) (n : String) (b : Bool) (m : String) :
    lookupByName (setRunning w n b) m
      = (lookupByName w m).map (fun d => if d.name == n then { d with running := b } else d) := by
  unfold lookupByName setRunning
  rw [List.find?_map]
  have hfun : ((fun d : Dom => d.name == m)
        ∘ fun d : Dom => if d.name == n then { d with running := b } else d)
      = fun d : Dom => d.name == m := by
    funext d
    by_cases h : d.name == n <;> simp [h, Function.comp]
  rw [hfun]

theorem setRunning_preserves_identity (w : World) (n : String) (b : Bool) :
    (setRunning w n b).doms.map (fun x => (x.name, x.xmlName, x.xmlRest))
      = w.doms.map (fun x => (x.name, x.xmlName, x.xmlRest)) := by
  unfold setRunning
  rw [List.map_map]
  congr 1
  funext d
  by_cases h : d.name == n <;> simp [h, Function.comp]

/-- C1 (amended): renaming to a name that is already defined reports exactly
the name-collision message and performs no undefine, no redefine and no
restart — the names and XML definitions of every domain, in particular of
the old and the candidate domain, are exactly as before — but the
running/stopped state of the old domain is not preserved: the code
gracefully stops a running old domain before it performs the collision
check, and leaves it stopped. A stopped old domain is left fully
untouched. -/
theorem claim1_rename_collision (w : World) (old new : String) (d : Dom)
    (hc : w.connOk = true) (hold : lookupByName w old = some d)
    (hnew : (lookupByName w new).isSome = true) (hstop : w.stopErr = none) :
    rename_vm w old new
      = ("VM with name '" ++ new ++ "' already exists",
         if d.running then setRunning w old false else w)
    ∧ (if d.running then setRunning w old false else w).doms.map
        (fun x => (x.name, x.xmlName, x.xmlRest))
      = w.doms.map (fun x => (x.name, x.xmlName, x.xmlRest))
    ∧ (new ≠ old →
        lookupByName (if d.running then setRunning w old false else w) new
          = lookupByName w new) := by
  obtain ⟨d', hd'⟩ := Option.isSome_iff_exists.mp hnew
  have hname' : d'.name = new := by
    have := List.find?_some hd'
    simpa using this
  have hcollide : ∀ w₁ : World, lookupByName w₁ new ≠ none →
      renameStep w₁ old new d.xmlRest d.running
        = ("VM with name '" ++ new ++ "' already exists", w₁) := by
    intro w₁ h1
    unfold renameStep
    cases h2 : lookupByName w₁ new with
    | none => exact absurd h2 h1
    | some x => rfl
  refine ⟨?_, ?_, ?_⟩
  · unfold rename_vm
    rw [if_pos hc, hold]
    have hrun : _is_vm_running w old = (d.running, none) := by
      simp [_is_vm_running, hc, hold]
    rw [hrun]
    cases hr : d.running with
    | false =>
      rw [hr] at hcollide
      show renameStep w old new d.xmlRest false
        = ("VM with name '" ++ new ++ "' already exists", w)
      exact hcollide w (by rw [hd']; exact Option.some_ne_none d')
    | true =>
      rw [hr] at hcollide
      have hstopvm : _stop_vm w old false = ((true, "OK"), setRunning w old false) := by
        simp [_stop_vm, hc, hold, hr, hstop]
      have h3 : lookupByName (setRunning w old false) new ≠ none := by
        rw [lookup_setRunning, hd']
        simp
      show (if (_stop_vm w old false).1.1 = true then
              renameStep (_stop_vm w old false).2 old new d.xmlRest true
            else ("Failed to stop VM '" ++ old ++ "' for renaming: "
                    ++ (_stop_vm w old false).1.2, (_stop_vm w old false).2))
          = ("VM with name '" ++ new ++ "' already exists", setRunning w old false)
      rw [hstopvm]
      rw [if_pos rfl]
      exact hcollide (setRunning w old false) h3
  · cases hr : d.running with
    | false => rw [if_neg (by simp : ¬(false = true))]
    | true =>
      rw [if_pos rfl]
      exact setRunning_preserves_identity w old false
  · intro hne
    cases hr : d.running with
    | false => rw [if_neg (by simp : ¬(false = true))]
    | true =>
      rw [if_pos rfl, lookup_setRunning, hd']
      have hno : (d'.name == old) = false := by
        rw [hname']
        exact beq_false_of_ne hne
      simp only [Option.map_some']
      rw [if_neg (by simp [hno])]

theorem claim1_counterexample :
    (rename_vm ⟨[⟨"alpha", true, "alpha", "R"⟩, ⟨"beta", false, "beta", "S"⟩], true, "c", "l", none, none⟩
        "alpha" "beta").1
      = "VM with name 'beta' already exists"
    ∧ lookupByName ⟨[⟨"alpha", true, "alpha", "R"⟩, ⟨"beta", false, "beta", "S"⟩], true, "c", "l", none, none⟩
        "alpha" = some ⟨"alpha", true, "alpha", "R"⟩
    ∧ lookupByName (rename_vm ⟨[⟨"alpha", true, "alpha", "R"⟩, ⟨"beta", false, "beta", "S"⟩], true, "c", "l", none, none⟩
        "alpha" "beta").2 "alpha" = some ⟨"alpha", false, "alpha", "R"⟩ := by
  decide

theorem claim1_witness :
    rename_vm ⟨[⟨"vm1", false, "vm1", "R"⟩, ⟨"vm2", false, "vm2", "S"⟩], true, "c", "l", none, none⟩
        "vm1" "vm2"
      = ("VM with name 'vm2' already exists",
         ⟨[⟨"vm1", false, "vm1", "R"⟩, ⟨"vm2", false, "vm2", "S"⟩], true, "c", "l", none, none⟩) := by
  have h := claim1_rename_collision
    ⟨[⟨"vm1", false, "vm1", "R"⟩, ⟨"vm2", false, "vm2", "S"⟩], true, "c", "l", none, none⟩
    "vm1" "vm2" ⟨"vm1", false, "vm1", "R"⟩ (by decide) (by decide) (by decide) (by decide)
  simpa using h.1

end Lifecycle

namespace Resolver

/-! ### Image resolution (src/handlers.py: `_is_url`, `_get_cache_path`,
`_download_image`, `_resolve_image_path`)

The local filesystem is an association list from path to file contents.
The network (`urllib.request.urlopen` plus the chunked read loop) is a
function from URL to an outcome: the whole body, a failure before the
output file is opened (bad URL, refused connection, HTTP error status), or
a failure after a prefix of the body has been written to the output file.
`hashlib.md5(url).hexdigest()` is an external library call and is passed in
as a pure function `md5hex`; `urlparse` is modelled for the scheme and path
components the code reads. `downloads` counts network fetch attempts so
that re-download (or its absence) is observable. -/

/-- Filesystem: path to contents, first binding wins. -/
abbrev Fs := List (String × String)

/-- Contents of `p`, when the file exists. -/
def fsGet (fs : Fs) (p : String) : Option String :=
  (fs.find? (fun e => e.1 == p)).map (fun e => e.2)

/-- Write (create or overwrite) file `p` with contents `c`. -/
def fsSet (fs : Fs) (p c : String) : Fs :=
  (p, c) :: fs.filter (fun e => !(e.1 == p))

/-- Python `Path(p).exists()`. -/
def fsHas (fs : Fs) (p : String) : Bool :=
  (fsGet fs p).isSome

/-- Characters CPython's `urlparse` accepts inside a URL scheme. -/
def isSchemeChar (c : Char) : Bool :=
  c.isAlpha || c.isDigit || c == '+' || c == '-' || c == '.'

/-- Split a character list at the first `':'`, returning the parts before
and after it when present. -/
def splitColon : List Char → Option (List Char × List Char)
  | [] => none
  | c :: t =>
    if c == ':' then some ([], t)
    else (splitColon t).map (fun pr => (c :: pr.1, pr.2))

/-- Scheme component of `urlparse`: the lower-cased text before the first
`':'` when it is a well-formed scheme (letter first, scheme characters
throughout), else the empty string. -/
def schemeOf (s : String) : String :=
  match splitColon s.data with
  | none => ""
  | some (pre, _) =>
    match pre with
    | [] => ""
    | c :: cs =>
      if c.isAlpha && (c :: cs).all isSchemeChar then ⟨(c :: cs).map lowerChar⟩ else ""

/-- Model of `_is_url`: the parsed scheme is one of http, https, ftp, ftps. -/
def _is_url (s : String) : Bool :=
  ["http", "https", "ftp", "ftps"].contains (schemeOf s)

/-- Take characters up to the first `'?'` or `'#'` (end of the path
component). -/
def takePath : List Char → List Char
  | [] => []
  | c :: t => if c == '?' || c == '#' then [] else c :: takePath t

/-- Skip the netloc after `"//"`: everything up to the first `'/'` belongs
to the authority; a `'?'` or `'#'` before any `'/'` means the path is
empty. -/
def dropNetloc : List Char → List Char
  | [] => []
  | c :: t =>
    if c == '/' then c :: t
    else if c == '?' || c == '#' then []
    else dropNetloc t

/-- Path component of `urlparse` for the URL shapes the code feeds it. -/
def urlPath (s : String) : List Char :=
  match splitColon s.data with
  | none => takePath s.data
  | some (_, rest) =>
    match rest with
    | '/' :: '/' :: r => takePath (dropNetloc r)
    | r => takePath r

/-- Python `os.path.basename`: the segment after the last `'/'`. -/
def basenameOf (p : List Char) : List Char :=
  p.foldl (fun acc c => if c == '/' then [] else acc ++ [c]) []

/-- Model of `_get_cache_path`: hash-prefixed filename under the fixed
libvirt images directory (`str` of the `PosixPath` the code builds). -/
def _get_cache_path (md5hex : String → String) (url : String) : String :=
  let filename :=
    match basenameOf (urlPath url) with
    | [] => "image_" ++ md5hex url ++ ".qcow2"
    | c :: cs => String.mk (c :: cs)
  "/var/lib/libvirt/images/" ++ ("cached_" ++ md5hex url ++ "_" ++ filename)

/-- Outcome of one network fetch of a URL. -/
inductive DlResult where
  | ok (content : String)
  | connFail (msg : String)
  | midFail (written : String) (msg : String)
deriving DecidableEq, Repr

/-- Resolver-side world: the local filesystem and a count of network fetch
attempts. -/
structure RWorld where
  fs : Fs
  downloads : Nat
deriving DecidableEq, Repr

/-- Model of `_download_image`. On `connFail` (the `urlopen` call itself
raises) the output file was never opened, so the filesystem is unchanged;
on `midFail` the already-written prefix remains at `cachePath`, exactly as
the chunk loop leaves it; the caught exception produces the error string.
Every branch counts one fetch attempt. -/
def _download_image (net : String → DlResult) (url cachePath : String) (w : RWorld) :
    (Bool × Option String) × RWorld :=
  match net url with
  | .ok c => ((true, none), ⟨fsSet w.fs cachePath c, w.downloads + 1⟩)
  | .connFail m =>
    ((false, some ("Failed to download image from " ++ url ++ ": " ++ m)),
     ⟨w.fs, w.downloads + 1⟩)
  | .midFail part m =>
    ((false, some ("Failed to download image from " ++ url ++ ": " ++ m)),
     ⟨fsSet w.fs cachePath part, w.downloads + 1⟩)

/-- Model of `_resolve_image_path`: URL branch with cache check and
download, then the remote-existence branch when the configured URI is an
SSH one, then the local-path branch. `remoteFile` is the `test -f` probe
over SSH. Returns `(resolved_path?, error?)` with the updated world. -/
def _resolve_image_path (md5hex : String → String) (net : String → DlResult)
    (uri : String) (remoteFile : String → Bool) (pathOrUrl : String) (w : RWorld) :
    (Option String × Option String) × RWorld :=
  if _is_url pathOrUrl then
    if fsHas w.fs (_get_cache_path md5hex pathOrUrl) then
      ((some (_get_cache_path md5hex pathOrUrl), none), w)
    else
      if (_download_image net pathOrUrl (_get_cache_path md5hex pathOrUrl) w).1.1 then
        ((some (_get_cache_path md5hex pathOrUrl), none),
         (_download_image net pathOrUrl (_get_cache_path md5hex pathOrUrl) w).2)
      else
        ((none, (_download_image net pathOrUrl (_get_cache_path md5hex pathOrUrl) w).1.2),
         (_download_image net pathOrUrl (_get_cache_path md5hex pathOrUrl) w).2)
  else if inStr "ssh://" uri then
    if remoteFile pathOrUrl then ((some pathOrUrl, none), w)
    else ((none, some ("Remote image path does not exist: " ++ pathOrUrl)), w)
  else if fsHas w.fs pathOrUrl then ((some pathOrUrl, none), w)
  else ((none, some ("Local image path does not exist: " ++ pathOrUrl)), w)

theorem fsGet_fsSet_self (fs : Fs) (p c : String) : fsGet (fsSet fs p c) p = some c := by
  simp [fsGet, fsSet, List.find?]

theorem fsHas_fsSet_self (fs : Fs) (p c : String) : fsHas (fsSet fs p c) p = true := by
  simp [fsHas, fsGet_fsSet_self]

theorem resolve_cached (md5hex : String → String) (net : String → DlResult)
    (uri : String) (remoteFile : String → Bool) (url : String) (w₂ : RWorld)
    (hurl : _is_url url = true)
    (h : fsHas w₂.fs (_get_cache_path md5hex url) = true) :
    _resolve_image_path md5hex net uri remoteFile url w₂
      = ((some (_get_cache_path md5hex url), none), w₂) := by
  unfold _resolve_image_path
  rw [hurl, if_pos rfl, h, if_pos rfl]

/-- C3: resolving the same URL twice in succession, when the first
resolution succeeded, returns the identical cached path without touching
the network again: the returned path is exactly the deterministic
hash-prefixed cache path of the URL, that path exists on the filesystem
after the first call, and the second call returns it together with the
world of the first call unchanged (in particular the fetch-attempt counter
`downloads` does not move). -/
theorem claim3_cache_idempotent (md5hex : String → String) (net : String → DlResult)
    (uri : String) (remoteFile : String → Bool) (url : String) (w : RWorld)
    (p : String) (w₁ : RWorld)
    (hurl : _is_url url = true)
    (h1 : _resolve_image_path md5hex net uri remoteFile url w = ((some p, none), w₁)) :
    p = _get_cache_path md5hex url
    ∧ fsHas w₁.fs (_get_cache_path md5hex url) = true
    ∧ _resolve_image_path md5hex net uri remoteFile url w₁ = ((some p, none), w₁) := by
  unfold _resolve_image_path at h1
  rw [hurl, if_pos rfl] at h1
  have hmain : p = _get_cache_path md5hex url
      ∧ fsHas w₁.fs (_get_cache_path md5hex url) = true := by
    cases hcache : fsHas w.fs (_get_cache_path md5hex url) with
    | true =>
      rw [hcache, if_pos rfl] at h1
      simp only [Prod.mk.injEq, Option.some.injEq] at h1
      obtain ⟨⟨hp, -⟩, hw⟩ := h1
      exact ⟨hp.symm, hw ▸ hcache⟩
    | false =>
      rw [hcache, if_neg (by simp)] at h1
      cases hnet : net url with
      | ok c =>
        have hdl : _download_image net url (_get_cache_path md5hex url) w
            = ((true, none), ⟨fsSet w.fs (_get_cache_path md5hex url) c, w.downloads + 1⟩) := by
          unfold _download_image
          rw [hnet]
        rw [hdl, if_pos rfl] at h1
        simp only [Prod.mk.injEq, Option.some.injEq] at h1
        obtain ⟨⟨hp, -⟩, hw⟩ := h1
        refine ⟨hp.symm, ?_⟩
        rw [← hw]
        exact fsHas_fsSet_self _ _ _
      | connFail m =>
        have hdl : _download_image net url (_get_cache_path md5hex url) w
            = ((false, some ("Failed to download image from " ++ url ++ ": " ++ m)),
               ⟨w.fs, w.downloads + 1⟩) := by
          unfold _download_image
          rw [hnet]
        rw [hdl, if_neg (fun h => Bool.false_ne_true h)] at h1
        simp only [Prod.mk.injEq] at h1
        exact absurd h1.1.1 (by simp)
      | midFail part m =>
        have hdl : _download_image net url (_get_cache_path md5hex url) w
            = ((false, some ("Failed to download image from " ++ url ++ ": " ++ m)),
               ⟨fsSet w.fs (_get_cache_path md5hex url) part, w.downloads + 1⟩) := by
          unfold _download_image
          rw [hnet]
        rw [hdl, if_neg (fun h => Bool.false_ne_true h)] at h1
        simp only [Prod.mk.injEq] at h1
        exact absurd h1.1.1 (by simp)
  refine ⟨hmain.1, hmain.2, ?_⟩
  rw [hmain.1]
  exact resolve_cached md5hex net uri remoteFile url w₁ hurl hmain.2

theorem claim3_witness :
    _is_url "http://host/img/base.qcow2" = true
    ∧ _resolve_image_path (fun _ => "d41d") (fun _ => .ok "IMG") "qemu:///system"
        (fun _ => false) "http://host/img/base.qcow2" ⟨[], 0⟩
        = ((some "/var/lib/libvirt/images/cached_d41d_base.qcow2", none),
           ⟨[("/var/lib/libvirt/images/cached_d41d_base.qcow2", "IMG")], 1⟩)
    ∧ _resolve_image_path (fun _ => "d41d") (fun _ => .ok "IMG") "qemu:///system"
        (fun _ => false) "http://host/img/base.qcow2"
        ⟨[("/var/lib/libvirt/images/cached_d41d_base.qcow2", "IMG")], 1⟩
        = ((some "/var/lib/libvirt/images/cached_d41d_base.qcow2", none),
           ⟨[("/var/lib/libvirt/images/cached_d41d_base.qcow2", "IMG")], 1⟩) :=
  ⟨by decide, by decide,
   (claim3_cache_idempotent (fun _ => "d41d") (fun _ => .ok "IMG") "qemu:///system"
      (fun _ => false) "http://host/img/base.qcow2" ⟨[], 0⟩
      "/var/lib/libvirt/images/cached_d41d_base.qcow2"
      ⟨[("/var/lib/libvirt/images/cached_d41d_base.qcow2", "IMG")], 1⟩
      (by decide) (by decide)).2.2⟩

theorem claim2_counterexample :
    _resolve_image_path (fun _ => "9f0e") (fun _ => .midFail "HALF" "connection reset")
        "qemu:///system" (fun _ => false) "http://host/img/disk.qcow2" ⟨[], 0⟩
      = ((none, some "Failed to download image from http://host/img/disk.qcow2: connection reset"),
         ⟨[("/var/lib/libvirt/images/cached_9f0e_disk.qcow2", "HALF")], 1⟩)
    ∧ fsGet [("/var/lib/libvirt/images/cached_9f0e_disk.qcow2", "HALF")]
        "/var/lib/libvirt/images/cached_9f0e_disk.qcow2" = some "HALF"
    ∧ _resolve_image_path (fun _ => "9f0e") (fun _ => .midFail "HALF" "connection reset")
        "qemu:///system" (fun _ => false) "http://host/img/disk.qcow2"
        ⟨[("/var/lib/libvirt/images/cached_9f0e_disk.qcow2", "HALF")], 1⟩
      = ((some "/var/lib/libvirt/images/cached_9f0e_disk.qcow2", none),
         ⟨[("/var/lib/libvirt/images/cached_9f0e_disk.qcow2", "HALF")], 1⟩) := by
  refine ⟨by decide, by decide, by decide⟩

/-- C2 (amended): when a download fails partway through the body, the
failing resolution does report a download-failure error, but the partial
file is left at the cache path (its contents are exactly the written
prefix), and a subsequent resolution of the same URL observes the
half-written cache entry as a successfully resolved image, without
re-downloading. -/
theorem claim2_download_failure (md5hex : String → String) (net : String → DlResult)
    (uri : String) (remoteFile : String → Bool) (url : String) (w : RWorld)
    (part m : String)
    (hurl : _is_url url = true)
    (hnet : net url = .midFail part m)
    (hmiss : fsHas w.fs (_get_cache_path md5hex url) = false) :
    _resolve_image_path md5hex net uri remoteFile url w
      = ((none, some ("Failed to download image from " ++ url ++ ": " ++ m)),
         ⟨fsSet w.fs (_get_cache_path md5hex url) part, w.downloads + 1⟩)
    ∧ fsGet (fsSet w.fs (_get_cache_path md5hex url) part) (_get_cache_path md5hex url)
        = some part
    ∧ _resolve_image_path md5hex net uri remoteFile url
        ⟨fsSet w.fs (_get_cache_path md5hex url) part, w.downloads + 1⟩
      = ((some (_get_cache_path md5hex url), none),
         ⟨fsSet w.fs (_get_cache_path md5hex url) part, w.downloads + 1⟩) := by
  have hdl : _download_image net url (_get_cache_path md5hex url) w
      = ((false, some ("Failed to download image from " ++ url ++ ": " ++ m)),
         ⟨fsSet w.fs (_get_cache_path md5hex url) part, w.downloads + 1⟩) := by
    unfold _download_image
    rw [hnet]
  refine ⟨?_, fsGet_fsSet_self _ _ _, ?_⟩
  · unfold _resolve_image_path
    rw [hurl, if_pos rfl, hmiss, if_neg (by simp), hdl,
      if_neg (fun h => Bool.false_ne_true h)]
  · exact resolve_cached md5hex net uri remoteFile url _ hurl (fsHas_fsSet_self _ _ _)

theorem claim2_witness :
    _is_url "http://h/x.img" = true
    ∧ (fun (_ : String) => DlResult.midFail "HH" "timeout") "http://h/x.img"
        = DlResult.midFail "HH" "timeout"
    ∧ _resolve_image_path (fun _ => "ab") (fun _ => .midFail "HH" "timeout") "qemu:///system"
        (fun _ => true) "http://h/x.img"
        ⟨[("/var/lib/libvirt/images/cached_ab_x.img", "HH")], 1⟩
      = ((some "/var/lib/libvirt/images/cached_ab_x.img", none),
         ⟨[("/var/lib/libvirt/images/cached_ab_x.img", "HH")], 1⟩) :=
  ⟨by decide, by decide,
   by
     have h := claim2_download_failure (fun _ => "ab") (fun _ => .midFail "HH" "timeout")
       "qemu:///system" (fun _ => true) "http://h/x.img" ⟨[], 0⟩ "HH" "timeout"
       (by decide) (by decide) (by decide)
     have h2 := h.2.2
     revert h2
     decide⟩

end Resolver

namespace Discovery

/-! ### Network discovery (src/handlers.py: `get_vm_ip`)

The domain's live XML is modelled as the list of its `<interface>` elements
(MAC attribute text as written, plus the optional `<source network=...>`
attribute); `interfaceAddresses` (the guest agent) is an optional map from
interface name to addresses (`none` when the agent is unavailable or the
query raises); each virtual network is its name with its current DHCP lease
table (absence models `networkLookupByName`/`DHCPLeases` raising); the
`arp -a` output is an optional list of lines (`none` when the tool is
missing or fails). -/

/-- One `<interface>` element of the domain XML. -/
structure XmlIface where
  mac : String
  network : Option String
deriving DecidableEq, Repr

/-- Interface record as `get_vm_ip` extracts it (MAC lower-cased). -/
structure IfaceInfo where
  mac : String
  network : Option String
deriving DecidableEq, Repr

/-- One address reported by the guest agent. -/
structure AgentAddr where
  isIpv4 : Bool
  addr : String
deriving DecidableEq, Repr

/-- One DHCP lease row. -/
structure Lease where
  mac : String
  ipaddr : String
deriving DecidableEq, Repr

/-- Live state of one domain as discovery reads it. -/
structure DomInfo where
  xmlIfaces : List XmlIface
  active : Bool
  agent : Option (List (String × List AgentAddr))
deriving DecidableEq, Repr

/-- Hypervisor-side world for discovery. -/
structure DWorld where
  doms : List (String × DomInfo)
  nets : List (String × List Lease)
  arpOut : Option (List String)
  connOk : Bool
  connErr : String
  lookupErr : String
deriving DecidableEq, Repr

/-- Model of `conn.lookupByName` plus `XMLDesc` parsing. -/
def lookupDom (w : DWorld) (n : String) : Option DomInfo :=
  (w.doms.find? (fun e => e.1 == n)).map (fun e => e.2)

/-- Extraction of the interface list from the XML: the MAC attribute is
lower-cased, the source network carried along. -/
def extractIfaces (l : List XmlIface) : List IfaceInfo :=
  l.map (fun i => ⟨lowerStr i.mac, i.network⟩)

/-- Strategy 1, the guest-agent query: only on a running domain, skip
interfaces named `lo` or starting with `lo`, return the first IPv4 address
that is not loopback, tagged with its interface. -/
def tryAgent (active : Bool) (agent : Option (List (String × List AgentAddr))) :
    Option String :=
  if active then
    match agent with
    | none => none
    | some ifs =>
      ifs.findSome? fun e =>
        if e.1 == "lo" || startsW "lo" e.1 then none
        else
          e.2.findSome? fun a =>
            if a.isIpv4 && !(a.addr == "127.0.0.1") && !(startsW "127." a.addr) then
              some (a.addr ++ " (guest agent via " ++ e.1 ++ ")")
            else none
  else none

/-- Auto-detection loop of the DHCP strategy: collect, in interface order,
every distinct network referenced by the VM's interfaces, skipping falsy
(missing or empty) network names, as the `for iface in interfaces` loop
does. -/
def autoNetworks (ifaces : List IfaceInfo) : List String :=
  ifaces.foldl (fun acc i =>
    match i.network with
    | some m => if !(m == "") && !(acc.elem m) then acc ++ [m] else acc
    | none => acc) []

/-- Candidate networks consulted by the DHCP strategy: the explicit hint
alone when given; otherwise the auto-detected networks with `"default"`
appended when not already present. -/
def networksToCheck : Option String → List IfaceInfo → List String
  | some n, _ => [n]
  | none, ifaces =>
    if (autoNetworks ifaces).elem "default" then autoNetworks ifaces
    else autoNetworks ifaces ++ ["default"]

/-- Comparison used on a lease row: the lease MAC is lower-cased and
compared with the (already lower-cased) extracted interface MAC. -/
def leaseMatches (leaseMac ifaceMac : String) : Bool :=
  lowerStr leaseMac == ifaceMac

/-- Strategy 2, the DHCP lease lookup over the candidate networks; a
missing network (or one whose lease query raises) is skipped. -/
def tryDhcp (nets : List (String × List Lease)) (candidates : List String)
    (ifaces : List IfaceInfo) : Option String :=
  candidates.findSome? fun netName =>
    match (nets.find? (fun e => e.1 == netName)).map (fun e => e.2) with
    | none => none
    | some leases =>
      leases.findSome? fun lease =>
        ifaces.findSome? fun i =>
          if leaseMatches lease.mac i.mac then
            some (lease.ipaddr ++ " (DHCP from " ++ netName ++ ")")
          else none

/-- Longest run of digits and dots. -/
def takeIpRun : List Char → List Char
  | [] => []
  | c :: t => if c.isDigit || c == '.' then c :: takeIpRun t else []

/-- First match of the pattern `\(([0-9.]+)\)` in a line: at each `'('`,
the following maximal digits-and-dots run must be nonempty and followed by
`')'`; otherwise the search continues after the `'('`. -/
def parseArpIp : List Char → Option String
  | [] => none
  | c :: t =>
    if c == '(' then
      match takeIpRun t with
      | [] => parseArpIp t
      | r :: rs =>
        if (t.drop (r :: rs).length).headD ' ' == ')' then some (String.mk (r :: rs))
        else parseArpIp t
    else parseArpIp t

/-- Split at every `'.'`, as Python `ip.split('.')`. -/
def splitOnDot : List Char → List (List Char)
  | [] => [[]]
  | c :: t =>
    if c == '.' then [] :: splitOnDot t
    else
      match splitOnDot t with
      | [] => [[c]]
      | h :: r => (c :: h) :: r

/-- Decimal value of a digit run, as Python `int` on the digits the run can
contain. -/
def digitsVal (l : List Char) : Nat :=
  l.foldl (fun n c => n * 10 + (c.toNat - 48)) 0

/-- Octet validation: exactly four parts, each nonempty (an empty part makes
Python's `int` raise, treated as invalid) and at most 255. -/
def validOctets (ip : String) : Bool :=
  let parts := splitOnDot ip.data
  parts.length == 4 && parts.all (fun o => !o.isEmpty && digitsVal o ≤ 255)

/-- Strategy 3, the ARP table scan: for each interface, find a line of the
`arp -a` output containing the MAC (case-insensitively), extract the first
parenthesised digits-and-dots run, and accept it when it is a well-formed
four-octet address. -/
def tryArp (arpOut : Option (List String)) (ifaces : List IfaceInfo) : Option String :=
  match arpOut with
  | none => none
  | some lines =>
    ifaces.findSome? fun i =>
      lines.findSome? fun line =>
        if inStr i.mac (lowerStr line) then
          match parseArpIp line.data with
          | some ip => if validOctets ip then some (ip ++ " (ARP table)") else none
          | none => none
        else none

/-- Model of the `get_vm_ip` tool: the three strategies in order, first
success wins, and the diagnostic NotFound string carrying every searched
MAC when all fail. -/
def get_vm_ip (w : DWorld) (vmName : String) (networkName : Option String) : String :=
  if w.connOk then
    match lookupDom w vmName with
    | none => "VM '" ++ vmName ++ "' not found: " ++ w.lookupErr
    | some d =>
      if (extractIfaces d.xmlIfaces).isEmpty then
        "No network interfaces found for VM '" ++ vmName ++ "'"
      else
        match tryAgent d.active d.agent with
        | some r => r
        | none =>
          match tryDhcp w.nets (networksToCheck networkName (extractIfaces d.xmlIfaces))
              (extractIfaces d.xmlIfaces) with
          | some r => r
          | none =>
            match tryArp w.arpOut (extractIfaces d.xmlIfaces) with
            | some r => r
            | none =>
              "No IP found for VM '" ++ vmName ++ "' with MACs: "
                ++ joinComma ((extractIfaces d.xmlIfaces).map (fun i => i.mac))
  else "Libvirt error: " ++ w.connErr

theorem mem_step (acc : List String) (i : IfaceInfo) (n : String) :
    n ∈ (match i.network with
         | some m => if !(m == "") && !(acc.elem m) then acc ++ [m] else acc
         | none => acc)
      ↔ n ∈ acc ∨ (i.network = some n ∧ n ≠ "") := by
  cases hn : i.network with
  | none =>
    show n ∈ acc ↔ n ∈ acc ∨ (none = some n ∧ n ≠ "")
    simp
  | some m =>
    show n ∈ (if !(m == "") && !(acc.elem m) then acc ++ [m] else acc)
      ↔ n ∈ acc ∨ (some m = some n ∧ n ≠ "")
    by_cases hm : m = ""
    · subst hm
      have hc : (!(("" : String) == "") && !(acc.elem "")) = false := by simp
      rw [hc, if_neg (fun h => Bool.false_ne_true h)]
      simp only [Option.some.injEq]
      constructor
      · exact fun h => Or.inl h
      · rintro (h | ⟨rfl, hn2⟩)
        · exact h
        · exact absurd rfl hn2
    · by_cases hmem : m ∈ acc
      · have hc : (!(m == "") && !(acc.elem m)) = false := by
          rw [List.elem_iff.mpr hmem]
          simp
        rw [hc, if_neg (fun h => Bool.false_ne_true h)]
        simp only [Option.some.injEq]
        constructor
        · exact fun h => Or.inl h
        · rintro (h | ⟨rfl, -⟩)
          · exact h
          · exact hmem
      · have hc : (!(m == "") && !(acc.elem m)) = true := by
          have h1 : (m == "") = false := beq_false_of_ne hm
          have h2 : acc.elem m = false := by
            cases h3 : acc.elem m with
            | false => rfl
            | true => exact absurd (List.elem_iff.mp h3) hmem
          rw [h1, h2]
          rfl
        rw [hc, if_pos rfl]
        simp only [List.mem_append, List.mem_singleton, Option.some.injEq]
        constructor
        · rintro (h | rfl)
          · exact Or.inl h
          · exact Or.inr ⟨rfl, hm⟩
        · rintro (h | ⟨rfl, -⟩)
          · exact Or.inl h
          · exact Or.inr rfl

theorem mem_foldl_networks (ifs : List IfaceInfo) (acc : List String) (n : String) :
    n ∈ ifs.foldl (fun acc i =>
        match i.network with
        | some m => if !(m == "") && !(acc.elem m) then acc ++ [m] else acc
        | none => acc) acc
      ↔ n ∈ acc ∨ ∃ i ∈ ifs, i.network = some n ∧ n ≠ "" := by
  induction ifs generalizing acc with
  | nil => simp
  | cons i t ih =>
    rw [List.foldl_cons, ih, mem_step]
    simp only [List.mem_cons]
    constructor
    · rintro ((h | hi) | ⟨j, hj, hjn⟩)
      · exact Or.inl h
      · exact Or.inr ⟨i, Or.inl rfl, hi⟩
      · exact Or.inr ⟨j, Or.inr hj, hjn⟩
    · rintro (h | ⟨j, (rfl | hj), hjn⟩)
      · exact Or.inl (Or.inl h)
      · exact Or.inl (Or.inr hjn)
      · exact Or.inr ⟨j, hj, hjn⟩

theorem mem_autoNetworks (ifaces : List IfaceInfo) (n : String) :
    n ∈ autoNetworks ifaces ↔ ∃ i ∈ ifaces, i.network = some n ∧ n ≠ "" := by
  unfold autoNetworks
  rw [mem_foldl_networks]
  simp

theorem nodup_foldl_networks (ifs : List IfaceInfo) (acc : List String)
    (h : acc.Nodup) :
    (ifs.foldl (fun acc i =>
        match i.network with
        | some m => if !(m == "") && !(acc.elem m) then acc ++ [m] else acc
        | none => acc) acc).Nodup := by
  induction ifs generalizing acc with
  | nil => exact h
  | cons i t ih =>
    rw [List.foldl_cons]
    apply ih
    cases hn : i.network with
    | none => exact h
    | some m =>
      show (if !(m == "") && !(acc.elem m) then acc ++ [m] else acc).Nodup
      by_cases hcond : (!(m == "") && !(acc.elem m)) = true
      · rw [if_pos hcond]
        have hmem : m ∉ acc := by
          intro hc
          rw [List.elem_iff.mpr hc] at hcond
          simp at hcond
        simp [List.nodup_append, h, hmem]
      · rw [if_neg hcond]
        exact h

theorem nodup_autoNetworks (ifaces : List IfaceInfo) : (autoNetworks ifaces).Nodup :=
  nodup_foldl_networks ifaces [] (by simp)

/-- C9: the candidate network set of the DHCP strategy is the explicit hint
alone when one is given; otherwise it contains exactly the distinct
non-empty networks referenced by the VM's interfaces together with the
implicit fallback `"default"` (appended when not already present, with no
duplicates); and the lease comparison that `tryDhcp` applies to a lease MAC
and an extracted interface MAC is the case-insensitive one: it lower-cases
both sides, so it is invariant under re-casing either MAC. -/
theorem claim9_dhcp_candidates :
    (∀ (hint : String) (ifaces : List IfaceInfo), networksToCheck (some hint) ifaces = [hint])
    ∧ (∀ (ifaces : List IfaceInfo) (n : String),
        n ∈ networksToCheck none ifaces
          ↔ (∃ i ∈ ifaces, i.network = some n ∧ n ≠ "") ∨ n = "default")
    ∧ (∀ ifaces : List IfaceInfo,
        "default" ∈ networksToCheck none ifaces ∧ (networksToCheck none ifaces).Nodup)
    ∧ (∀ lm xm : String, leaseMatches lm (lowerStr xm) = (lowerStr lm == lowerStr xm))
    ∧ (∀ lm₁ lm₂ xm₁ xm₂ : String,
        lowerStr lm₁ = lowerStr lm₂ → lowerStr xm₁ = lowerStr xm₂ →
        leaseMatches lm₁ (lowerStr xm₁) = leaseMatches lm₂ (lowerStr xm₂)) := by
  refine ⟨fun hint ifaces => rfl, ?_, ?_, fun lm xm => rfl, ?_⟩
  · intro ifaces n
    show n ∈ (if (autoNetworks ifaces).elem "default" then autoNetworks ifaces
              else autoNetworks ifaces ++ ["default"]) ↔ _
    by_cases hd : (autoNetworks ifaces).elem "default" = true
    · rw [if_pos hd, mem_autoNetworks]
      constructor
      · exact fun h => Or.inl h
      · rintro (h | rfl)
        · exact h
        · have hm := List.elem_iff.mp hd
          rw [mem_autoNetworks] at hm
          exact hm
    · rw [if_neg hd, List.mem_append, mem_autoNetworks, List.mem_singleton]
  · intro ifaces
    constructor
    · show "default" ∈ (if (autoNetworks ifaces).elem "default" then autoNetworks ifaces
              else autoNetworks ifaces ++ ["default"])
      by_cases hd : (autoNetworks ifaces).elem "default" = true
      · rw [if_pos hd]
        exact List.elem_iff.mp hd
      · rw [if_neg hd]
        exact List.mem_append_right _ (by simp)
    · show (if (autoNetworks ifaces).elem "default" then autoNetworks ifaces
              else autoNetworks ifaces ++ ["default"]).Nodup
      by_cases hd : (autoNetworks ifaces).elem "default" = true
      · rw [if_pos hd]
        exact nodup_autoNetworks ifaces
      · rw [if_neg hd]
        have hmem : "default" ∉ autoNetworks ifaces := fun hc => hd (List.elem_iff.mpr hc)
        simp [List.nodup_append, nodup_autoNetworks, hmem]
  · intro lm₁ lm₂ xm₁ xm₂ h1 h2
    unfold leaseMatches
    rw [h1, h2]

theorem claim9_witness :
    ("default" ∈ networksToCheck none [⟨"52:54:00:aa:bb:cc", some "virbr1"⟩])
    ∧ lowerStr "52:54:00:AA:BB:CC" = lowerStr "52:54:00:aa:bb:cc"
    ∧ leaseMatches "52:54:00:AA:BB:CC" (lowerStr "52:54:00:0c:94:61")
        = leaseMatches "52:54:00:aa:bb:cc" (lowerStr "52:54:00:0c:94:61") :=
  ⟨(claim9_dhcp_candidates.2.2.1 [⟨"52:54:00:aa:bb:cc", some "virbr1"⟩]).1,
   by decide,
   claim9_dhcp_candidates.2.2.2.2 "52:54:00:AA:BB:CC" "52:54:00:aa:bb:cc"
     "52:54:00:0c:94:61" "52:54:00:0c:94:61" (by decide) rfl⟩

/-- C4: when no discovery strategy yields an address — the guest-agent
query, the DHCP lease lookup over the candidate networks and the ARP scan
all come back empty — `get_vm_ip` returns exactly the NotFound diagnostic
string carrying the comma-joined list of every MAC address extracted from
the VM's interfaces (each the lower-cased XML MAC attribute), and nothing
else: no address is fabricated. -/
theorem claim4_notfound_macs (w : DWorld) (vm : String) (hint : Option String)
    (d : DomInfo)
    (hc : w.connOk = true) (hd : lookupDom w vm = some d)
    (hne : (extractIfaces d.xmlIfaces).isEmpty = false)
    (hagent : tryAgent d.active d.agent = none)
    (hdhcp : tryDhcp w.nets (networksToCheck hint (extractIfaces d.xmlIfaces))
        (extractIfaces d.xmlIfaces) = none)
    (harp : tryArp w.arpOut (extractIfaces d.xmlIfaces) = none) :
    get_vm_ip w vm hint
      = "No IP found for VM '" ++ vm ++ "' with MACs: "
          ++ joinComma ((extractIfaces d.xmlIfaces).map (fun i => i.mac))
    ∧ (extractIfaces d.xmlIfaces).map (fun i => i.mac)
        = d.xmlIfaces.map (fun i => lowerStr i.mac) := by
  constructor
  · simp [get_vm_ip, hc, hd, hne, hagent, hdhcp, harp]
  · unfold extractIfaces
    rw [List.map_map]
    rfl

theorem claim4_witness :
    tryAgent false none = none
    ∧ get_vm_ip
        ⟨[("web", ⟨[⟨"52:54:00:AA:BB:CC", some "default"⟩], false, none⟩)],
         [], none, true, "c", "l"⟩ "web" none
      = "No IP found for VM 'web' with MACs: 52:54:00:aa:bb:cc" :=
  ⟨by decide,
   by
     have h := (claim4_notfound_macs
       ⟨[("web", ⟨[⟨"52:54:00:AA:BB:CC", some "default"⟩], false, none⟩)],
        [], none, true, "c", "l"⟩ "web" none
       ⟨[⟨"52:54:00:AA:BB:CC", some "default"⟩], false, none⟩
       (by decide) (by decide) (by decide) (by decide) (by decide) (by decide)).1
     revert h
     decide⟩

end Discovery

namespace Provision

/-! ### Cloud-init ISO packaging and the create-with-cloud-init flows
(src/handlers.py: `_create_iso_with_genisoimage`, `generate_cloudinit_iso`,
`create_vm_with_cloudinit`, `create_vm_with_cloudinit_install`)

The world tracks the set of files on disk plus the observable behavior of
the external collaborators: availability and outcome of `cloud-localds`,
`genisoimage` and `mkisofs` (an outcome of `some stderr` models
`ErrorReturnCode` with that stderr, with `…Produced` telling whether the
tool nonetheless left the ISO on disk), the outcome of `conn.defineXML`
(`defineErr`) and of `LibvirtWrapper.install` (`installErr`), and the
message the subsequent `_start_vm` call returns (`startMsg`; the start
helper itself is modelled in the `Lifecycle` section). The image-resolution
outcome pair `(resolved_path?, error?)` is passed as an argument; it is
modelled in the `Resolver` section. The local `tempfile` payload files are
not tracked: they are unlinked in `finally` blocks and no claim observes
them. -/

/-- World for the provisioning flows. -/
structure PWorld where
  fs : List String
  connOk : Bool
  connErr : String
  cloudLocaldsAvail : Bool
  cloudRes : Option String
  genisoAvail : Bool
  genisoRes : Option String
  genisoProduced : Bool
  mkisofsAvail : Bool
  mkisofsRes : Option String
  mkisofsProduced : Bool
  defineErr : Option String
  installErr : Option String
  startMsg : String
deriving DecidableEq, Repr

/-- File creation. -/
def addFile (w : PWorld) (p : String) : PWorld :=
  { w with fs := if w.fs.elem p then w.fs else w.fs ++ [p] }

/-- Python `os.remove(p)` with errors suppressed. -/
def removeFile (w : PWorld) (p : String) : PWorld :=
  { w with fs := w.fs.filter (fun q => !(q == p)) }

/-- Python `Path(p).exists()` / presence of a file. -/
def hasFile (w : PWorld) (p : String) : Bool :=
  w.fs.elem p

/-- Benign genisoimage stderr recognised by the fallback ISO builder. -/
def genisoBenign : String := "Permission denied. Cannot open '.genisoimagerc'."

/-- Benign mkisofs stderr recognised by the fallback ISO builder. -/
def mkisofsBenign : String := "Permission denied. Cannot open '.mkisofsrc'"

/-- Model of `_create_iso_with_genisoimage`: try `genisoimage`, else
`mkisofs`, else fail naming the missing tools. A tool failure whose stderr
contains the benign config-file permission warning is downgraded to success
when the ISO file is found on disk afterwards. -/
def _create_iso_with_genisoimage (w : PWorld) (iso : String) :
    (Bool × Option String) × PWorld :=
  if w.genisoAvail then
    match w.genisoRes with
    | none => ((true, none), addFile w iso)
    | some stderr =>
      if inStr genisoBenign stderr
          && hasFile (if w.genisoProduced then addFile w iso else w) iso then
        ((true, none), if w.genisoProduced then addFile w iso else w)
      else
        ((false, some ("Failed to create ISO: " ++ stderr)),
         if w.genisoProduced then addFile w iso else w)
  else if w.mkisofsAvail then
    match w.mkisofsRes with
    | none => ((true, none), addFile w iso)
    | some stderr =>
      if inStr mkisofsBenign stderr
          && hasFile (if w.mkisofsProduced then addFile w iso else w) iso then
        ((true, none), if w.mkisofsProduced then addFile w iso else w)
      else
        ((false, some ("Failed to create ISO: " ++ stderr)),
         if w.mkisofsProduced then addFile w iso else w)
  else
    ((false,
      some "Neither cloud-localds nor genisoimage/mkisofs found. Please install cloud-image-utils or genisoimage package."),
     w)

/-- Model of `generate_cloudinit_iso`: `cloud-localds` first when
available (its failure is not retried with the fallback), else the
`genisoimage`/`mkisofs` fallback. -/
def generate_cloudinit_iso (w : PWorld) (iso : String) :
    (Bool × Option String) × PWorld :=
  if w.cloudLocaldsAvail then
    match w.cloudRes with
    | none => ((true, none), addFile w iso)
    | some e => ((false, some ("cloud-localds failed: " ++ e)), w)
  else _create_iso_with_genisoimage w iso

/-- Model of the `create_vm_with_cloudinit` tool after image resolution
(whose `(resolved_path?, error?)` outcome is the `resolveRes` argument):
open the connection, build user data (pure templating, not observed here),
package the ISO at the fixed per-VM path, define the domain, and start it.
When `defineXML` raises, the orphaned ISO is removed before the error
returns. -/
def create_vm_with_cloudinit (w : PWorld) (name : String)
    (resolveRes : Option String × Option String) : String × PWorld :=
  match resolveRes.2 with
  | some e => ("Image resolution failed: " ++ e, w)
  | none =>
    if w.connOk then
      if (generate_cloudinit_iso w ("/var/lib/libvirt/images/" ++ name ++ "-cloudinit.iso")).1.1 then
        match w.defineErr with
        | some e =>
          ("Libvirt error: " ++ e,
           removeFile (generate_cloudinit_iso w ("/var/lib/libvirt/images/" ++ name ++ "-cloudinit.iso")).2
             ("/var/lib/libvirt/images/" ++ name ++ "-cloudinit.iso"))
        | none =>
          (w.startMsg,
           (generate_cloudinit_iso w ("/var/lib/libvirt/images/" ++ name ++ "-cloudinit.iso")).2)
      else
        ("cloud-init ISO creation failed: "
           ++ (generate_cloudinit_iso w ("/var/lib/libvirt/images/" ++ name ++ "-cloudinit.iso")).1.2.getD "",
         (generate_cloudinit_iso w ("/var/lib/libvirt/images/" ++ name ++ "-cloudinit.iso")).2)
    else ("Libvirt error: " ++ w.connErr, w)

/-- Model of the `create_vm_with_cloudinit_install` tool after image
resolution: package the ISO, then `LibvirtWrapper.install`; when the
install fails, the orphaned ISO is removed before the error returns. -/
def create_vm_with_cloudinit_install (w : PWorld) (name : String)
    (resolveRes : Option String × Option String) : String × PWorld :=
  match resolveRes.2 with
  | some e => ("Image resolution failed: " ++ e, w)
  | none =>
    if (generate_cloudinit_iso w ("/var/lib/libvirt/images/" ++ name ++ "-cloudinit.iso")).1.1 then
      match w.installErr with
      | some e =>
        ("VM installation failed: " ++ e,
         removeFile (generate_cloudinit_iso w ("/var/lib/libvirt/images/" ++ name ++ "-cloudinit.iso")).2
           ("/var/lib/libvirt/images/" ++ name ++ "-cloudinit.iso"))
      | none =>
        ("OK",
         (generate_cloudinit_iso w ("/var/lib/libvirt/images/" ++ name ++ "-cloudinit.iso")).2)
    else
      ("cloud-init ISO creation failed: "
         ++ (generate_cloudinit_iso w ("/var/lib/libvirt/images/" ++ name ++ "-cloudinit.iso")).1.2.getD "",
       (generate_cloudinit_iso w ("/var/lib/libvirt/images/" ++ name ++ "-cloudinit.iso")).2)

theorem hasFile_removeFile (w : PWorld) (p : String) :
    hasFile (removeFile w p) p = false := by
  simp [hasFile, removeFile, List.elem_eq_mem, List.mem_filter]

theorem hasFile_addFile (w : PWorld) (p : String) :
    hasFile (addFile w p) p = true := by
  unfold hasFile addFile
  by_cases h : w.fs.elem p = true
  · rw [if_pos h]
    exact h
  · rw [if_neg h]
    rw [List.elem_eq_mem]
    simp

/-- C7: when the chosen ISO backend (genisoimage when installed, else
mkisofs) fails with a diagnostic that is exactly the benign config-file
permission warning and the ISO file nonetheless exists on disk afterwards,
packaging reports success with no error; when the ISO file does not exist,
the failure is escalated as an error carrying the tool's stderr, whatever
it contains. -/
theorem claim7_benign_warning (w : PWorld) (iso s : String) :
    (w.genisoAvail = true → w.genisoRes = some genisoBenign → w.genisoProduced = true →
      _create_iso_with_genisoimage w iso = ((true, none), addFile w iso))
    ∧ (w.genisoAvail = true → w.genisoRes = some s → w.genisoProduced = false →
        hasFile w iso = false →
        _create_iso_with_genisoimage w iso
          = ((false, some ("Failed to create ISO: " ++ s)), w))
    ∧ (w.genisoAvail = false → w.mkisofsAvail = true → w.mkisofsRes = some mkisofsBenign →
        w.mkisofsProduced = true →
        _create_iso_with_genisoimage w iso = ((true, none), addFile w iso))
    ∧ (w.genisoAvail = false → w.mkisofsAvail = true → w.mkisofsRes = some s →
        w.mkisofsProduced = false → hasFile w iso = false →
        _create_iso_with_genisoimage w iso
          = ((false, some ("Failed to create ISO: " ++ s)), w)) := by
  refine ⟨?_, ?_, ?_, ?_⟩
  · intro hga hres hprod
    simp [_create_iso_with_genisoimage, hga, hres, hprod, inStr_refl, hasFile_addFile]
  · intro hga hres hprod hmiss
    simp [_create_iso_with_genisoimage, hga, hres, hprod, hmiss]
  · intro hga hmk hres hprod
    simp [_create_iso_with_genisoimage, hga, hmk, hres, hprod, inStr_refl, hasFile_addFile]
  · intro hga hmk hres hprod hmiss
    simp [_create_iso_with_genisoimage, hga, hmk, hres, hprod, hmiss]

theorem claim7_witness :
    _create_iso_with_genisoimage
        ⟨[], true, "c", false, none, true, some genisoBenign, true, false, none, false,
         none, none, "OK"⟩ "/var/lib/libvirt/images/db1-cloudinit.iso"
      = ((true, none),
         ⟨["/var/lib/libvirt/images/db1-cloudinit.iso"], true, "c", false, none, true,
          some genisoBenign, true, false, none, false, none, none, "OK"⟩)
    ∧ _create_iso_with_genisoimage
        ⟨[], true, "c", false, none, true, some "No space left on device", false, false,
         none, false, none, none, "OK"⟩ "/var/lib/libvirt/images/db1-cloudinit.iso"
      = ((false, some "Failed to create ISO: No space left on device"),
         ⟨[], true, "c", false, none, true, some "No space left on device", false, false,
          none, false, none, none, "OK"⟩) :=
  ⟨by
    have h := (claim7_benign_warning
      ⟨[], true, "c", false, none, true, some genisoBenign, true, false, none, false,
       none, none, "OK"⟩ "/var/lib/libvirt/images/db1-cloudinit.iso" "x").1
      rfl rfl rfl
    revert h
    decide,
   by
    have h := (claim7_benign_warning
      ⟨[], true, "c", false, none, true, some "No space left on device", false, false,
       none, false, none, none, "OK"⟩ "/var/lib/libvirt/images/db1-cloudinit.iso"
      "No space left on device").2.1 rfl rfl rfl (by decide)
    revert h
    decide⟩

/-- C5: in both cloud-init create variants, any failure at domain
definition after the cloud-init ISO has been packaged (`defineXML` raising
in `create_vm_with_cloudinit`, the install step failing in
`create_vm_with_cloudinit_install`) removes the orphaned ISO at
`<images-dir>/<vm-name>-cloudinit.iso` before the error is returned, so the
ISO file is absent from the final filesystem. -/
theorem claim5_orphaned_iso_removed (w : PWorld) (name rp : String)
    (hc : w.connOk = true)
    (hiso : (generate_cloudinit_iso w
        ("/var/lib/libvirt/images/" ++ name ++ "-cloudinit.iso")).1.1 = true) :
    (∀ e, w.defineErr = some e →
      create_vm_with_cloudinit w name (some rp, none)
        = ("Libvirt error: " ++ e,
           removeFile (generate_cloudinit_iso w
               ("/var/lib/libvirt/images/" ++ name ++ "-cloudinit.iso")).2
             ("/var/lib/libvirt/images/" ++ name ++ "-cloudinit.iso"))
      ∧ hasFile (create_vm_with_cloudinit w name (some rp, none)).2
          ("/var/lib/libvirt/images/" ++ name ++ "-cloudinit.iso") = false)
    ∧ (∀ e, w.installErr = some e →
      create_vm_with_cloudinit_install w name (some rp, none)
        = ("VM installation failed: " ++ e,
           removeFile (generate_cloudinit_iso w
               ("/var/lib/libvirt/images/" ++ name ++ "-cloudinit.iso")).2
             ("/var/lib/libvirt/images/" ++ name ++ "-cloudinit.iso"))
      ∧ hasFile (create_vm_with_cloudinit_install w name (some rp, none)).2
          ("/var/lib/libvirt/images/" ++ name ++ "-cloudinit.iso") = false) := by
  constructor
  · intro e he
    have hmain : create_vm_with_cloudinit w name (some rp, none)
        = ("Libvirt error: " ++ e,
           removeFile (generate_cloudinit_iso w
               ("/var/lib/libvirt/images/" ++ name ++ "-cloudinit.iso")).2
             ("/var/lib/libvirt/images/" ++ name ++ "-cloudinit.iso")) := by
      simp [create_vm_with_cloudinit, hc, hiso, he]
    refine ⟨hmain, ?_⟩
    rw [hmain]
    exact hasFile_removeFile _ _
  · intro e he
    have hmain : create_vm_with_cloudinit_install w name (some rp, none)
        = ("VM installation failed: " ++ e,
           removeFile (generate_cloudinit_iso w
               ("/var/lib/libvirt/images/" ++ name ++ "-cloudinit.iso")).2
             ("/var/lib/libvirt/images/" ++ name ++ "-cloudinit.iso")) := by
      simp [create_vm_with_cloudinit_install, hiso, he]
    refine ⟨hmain, ?_⟩
    rw [hmain]
    exact hasFile_removeFile _ _

theorem claim5_witness :
    hasFile (create_vm_with_cloudinit
        ⟨[], true, "c", true, none, false, none, false, false, none, false,
         some "operation failed: domain already exists", none, "OK"⟩
        "db1" (some "/var/lib/libvirt/images/base.qcow2", none)).2
      "/var/lib/libvirt/images/db1-cloudinit.iso" = false
    ∧ hasFile (create_vm_with_cloudinit_install
        ⟨[], true, "c", true, none, false, none, false, false, none, false,
         none, some "virt-install failed: boom", "OK"⟩
        "db1" (some "/var/lib/libvirt/images/base.qcow2", none)).2
      "/var/lib/libvirt/images/db1-cloudinit.iso" = false :=
  ⟨((claim5_orphaned_iso_removed
      ⟨[], true, "c", true, none, false, none, false, false, none, false,
       some "operation failed: domain already exists", none, "OK"⟩
      "db1" "/var/lib/libvirt/images/base.qcow2" rfl (by decide)).1
      "operation failed: domain already exists" rfl).2,
   ((claim5_orphaned_iso_removed
      ⟨[], true, "c", true, none, false, none, false, false, none, false,
       none, some "virt-install failed: boom", "OK"⟩
      "db1" "/var/lib/libvirt/images/base.qcow2" rfl (by decide)).2
      "virt-install failed: boom" rfl).2⟩

end Provision

namespace RemoteIso

/-! ### Remote cloud-init ISO creation (src/handlers.py:
`LibvirtWrapper.create_remote_cloudinit_iso`)

The remote host's filesystem is the set of paths present there. Each
`ssh_cmd` invocation's success is injected as a boolean (`wUserOk` and
`wMetaOk` for the two `echo … > /tmp/…` writes, `cloudOk` for the
`cloud-localds` run, `mkOk` for the `sudo mkisofs` fallback), with the
corresponding stderr texts as string arguments; a failing write leaves no
file, a successful one creates it, a successful ISO build leaves the ISO
under the hypervisor's image directory, and the `rm -f` cleanup command
removes both temporary files. -/

/-- Remote-host filesystem. -/
structure RemWorld where
  rfs : List String
deriving DecidableEq, Repr

/-- Remote file creation. -/
def raddFile (w : RemWorld) (p : String) : RemWorld :=
  ⟨if w.rfs.elem p then w.rfs else w.rfs ++ [p]⟩

/-- Remote `rm -f ud md`. -/
def rmTemp (w : RemWorld) (ud md : String) : RemWorld :=
  ⟨w.rfs.filter (fun q => !(q == ud) && !(q == md))⟩

/-- Model of `create_remote_cloudinit_iso`: refuse non-SSH URIs, write the
two temporary payload files, try `cloud-localds` then `sudo mkisofs`, and
run the `rm -f` cleanup on the three paths that reach it — the two
tool-success returns and the tool-failure return. The failed-write returns
do not clean up. Returns `(success, iso_path?, error?)`. -/
def create_remote_cloudinit_iso (uri vm : String)
    (wUserOk wMetaOk cloudOk mkOk : Bool) (eUser eMeta eIso : String)
    (w : RemWorld) : (Bool × Option String × Option String) × RemWorld :=
  if inStr "ssh://" uri then
    if wUserOk then
      if wMetaOk then
        if cloudOk then
          ((true, some ("/var/lib/libvirt/images/" ++ vm ++ "-cloudinit.iso"), none),
           rmTemp (raddFile (raddFile (raddFile w ("/tmp/" ++ vm ++ "-user-data"))
               ("/tmp/" ++ vm ++ "-meta-data"))
               ("/var/lib/libvirt/images/" ++ vm ++ "-cloudinit.iso"))
             ("/tmp/" ++ vm ++ "-user-data") ("/tmp/" ++ vm ++ "-meta-data"))
        else if mkOk then
          ((true, some ("/var/lib/libvirt/images/" ++ vm ++ "-cloudinit.iso"), none),
           rmTemp (raddFile (raddFile (raddFile w ("/tmp/" ++ vm ++ "-user-data"))
               ("/tmp/" ++ vm ++ "-meta-data"))
               ("/var/lib/libvirt/images/" ++ vm ++ "-cloudinit.iso"))
             ("/tmp/" ++ vm ++ "-user-data") ("/tmp/" ++ vm ++ "-meta-data"))
        else
          ((false, none, some ("Failed to create ISO on remote host: " ++ eIso)),
           rmTemp (raddFile (raddFile w ("/tmp/" ++ vm ++ "-user-data"))
               ("/tmp/" ++ vm ++ "-meta-data"))
             ("/tmp/" ++ vm ++ "-user-data") ("/tmp/" ++ vm ++ "-meta-data"))
      else
        ((false, none, some ("Failed to create meta-data on remote host: " ++ eMeta)),
         raddFile w ("/tmp/" ++ vm ++ "-user-data"))
    else
      ((false, none, some ("Failed to create user-data on remote host: " ++ eUser)), w)
  else ((false, none, some "Remote ISO creation only supported for SSH connections"), w)

theorem rfs_rmTemp_ud (w : RemWorld) (ud md : String) :
    (rmTemp w ud md).rfs.elem ud = false := by
  simp [rmTemp, List.elem_eq_mem, List.mem_filter]

theorem rfs_rmTemp_md (w : RemWorld) (ud md : String) :
    (rmTemp w ud md).rfs.elem md = false := by
  simp [rmTemp, List.elem_eq_mem, List.mem_filter]

theorem rfs_raddFile_self (w : RemWorld) (p : String) :
    (raddFile w p).rfs.elem p = true := by
  unfold raddFile
  by_cases h : w.rfs.elem p = true
  · rw [if_pos h]
    exact h
  · rw [if_neg h]
    rw [List.elem_eq_mem]
    simp

theorem claim8_counterexample :
    create_remote_cloudinit_iso "qemu+ssh://ubuntu@host/system" "db1"
        true false true true "eu" "disk full" "ei" ⟨[]⟩
      = ((false, none, some "Failed to create meta-data on remote host: disk full"),
         ⟨["/tmp/db1-user-data"]⟩)
    ∧ (create_remote_cloudinit_iso "qemu+ssh://ubuntu@host/system" "db1"
        true false true true "eu" "disk full" "ei" ⟨[]⟩).2.rfs.elem "/tmp/db1-user-data"
      = true := by
  refine ⟨by decide, by decide⟩

/-- C8 (amended): the remote temporary user-data and meta-data files are
removed before the call returns on the paths that reach the packaging
stage — `cloud-localds` success, `mkisofs` success, and packaging failure —
but not on every exit path: when the remote meta-data write fails, the call
returns the error with the already-written user-data file still present
under the remote temporary path. -/
theorem claim8_remote_cleanup (uri vm : String)
    (wUserOk wMetaOk cloudOk mkOk : Bool) (eUser eMeta eIso : String)
    (w : RemWorld) (hssh : inStr "ssh://" uri = true) :
    (wUserOk = true → wMetaOk = true →
      (create_remote_cloudinit_iso uri vm wUserOk wMetaOk cloudOk mkOk
          eUser eMeta eIso w).2.rfs.elem ("/tmp/" ++ vm ++ "-user-data") = false
      ∧ (create_remote_cloudinit_iso uri vm wUserOk wMetaOk cloudOk mkOk
          eUser eMeta eIso w).2.rfs.elem ("/tmp/" ++ vm ++ "-meta-data") = false)
    ∧ (wUserOk = true → wMetaOk = false →
      (create_remote_cloudinit_iso uri vm wUserOk wMetaOk cloudOk mkOk
          eUser eMeta eIso w).1
        = (false, none, some ("Failed to create meta-data on remote host: " ++ eMeta))
      ∧ (create_remote_cloudinit_iso uri vm wUserOk wMetaOk cloudOk mkOk
          eUser eMeta eIso w).2.rfs.elem ("/tmp/" ++ vm ++ "-user-data") = true) := by
  constructor
  · intro hu hm
    subst hu
    subst hm
    unfold create_remote_cloudinit_iso
    rw [hssh, if_pos rfl, if_pos rfl, if_pos rfl]
    cases cloudOk with
    | true =>
      rw [if_pos rfl]
      exact ⟨rfs_rmTemp_ud _ _ _, rfs_rmTemp_md _ _ _⟩
    | false =>
      rw [if_neg (fun h => Bool.false_ne_true h)]
      cases mkOk with
      | true =>
        rw [if_pos rfl]
        exact ⟨rfs_rmTemp_ud _ _ _, rfs_rmTemp_md _ _ _⟩
      | false =>
        rw [if_neg (fun h => Bool.false_ne_true h)]
        exact ⟨rfs_rmTemp_ud _ _ _, rfs_rmTemp_md _ _ _⟩
  · intro hu hm
    subst hu
    subst hm
    unfold create_remote_cloudinit_iso
    rw [hssh, if_pos rfl, if_pos rfl, if_neg (fun h => Bool.false_ne_true h)]
    exact ⟨rfl, rfs_raddFile_self _ _⟩

theorem claim8_witness :
    inStr "ssh://" "qemu+ssh://user@hv/system" = true
    ∧ (create_remote_cloudinit_iso "qemu+ssh://user@hv/system" "web" true true true true
        "a" "b" "c" ⟨["/tmp/web-user-data"]⟩).2.rfs.elem "/tmp/web-user-data" = false
    ∧ (create_remote_cloudinit_iso "qemu+ssh://user@hv/system" "web" true true true true
        "a" "b" "c" ⟨["/tmp/web-user-data"]⟩).2.rfs.elem "/tmp/web-meta-data" = false :=
  ⟨by decide,
   (claim8_remote_cleanup "qemu+ssh://user@hv/system" "web" true true true true
      "a" "b" "c" ⟨["/tmp/web-user-data"]⟩ (by decide)).1 rfl rfl |>.1,
   (claim8_remote_cleanup "qemu+ssh://user@hv/system" "web" true true true true
      "a" "b" "c" ⟨["/tmp/web-user-data"]⟩ (by decide)).1 rfl rfl |>.2⟩

end RemoteIso

namespace DomXml

/-! ### Domain descriptor construction (src/handlers.py:
`_render_domain_xml` as called by `create_vm` and
`create_vm_with_cloudinit`) -/

/-- Modelled from the spec: the Jinja2 template `domain.xml.j2` is not under
src/ and the spec treats templating as a pure black-box function from the
substituted configuration record to the rendered text, so the rendered
domain descriptor is modelled as the record of the fields `_render_domain_xml`
substitutes into it (name, memory, cores, disk path, MAC address, optional
CD-ROM path). -/
structure DomainDescriptor where
  name : String
  memory : Nat
  cores : Nat
  disk_path : String
  mac_address : String
  cdrom_path : Option String
deriving DecidableEq, Repr

/-- Model of `_render_domain_xml`: the descriptor is exactly the
substituted record. -/
def _render_domain_xml (name : String) (memory cores : Nat) (disk_path mac_address : String)
    (cdrom_path : Option String) : DomainDescriptor :=
  ⟨name, memory, cores, disk_path, mac_address, cdrom_path⟩

/-- Descriptor that `create_vm` submits to `conn.defineXML` once the image
reference has resolved to `resolved_path`: the MAC address argument is the
hard-coded literal from the source. -/
def create_vm_descriptor (name : String) (cores memory : Nat) (resolved_path : String) :
    DomainDescriptor :=
  _render_domain_xml name memory cores resolved_path "52:54:00:0c:94:61" none

/-- Two lower-case hex digits, as Python `f"{v:02x}"` renders a byte. -/
def hex2 (v : Nat) : String :=
  ⟨[(if v / 16 < 10 then Char.ofNat (48 + v / 16) else Char.ofNat (87 + v / 16)),
    (if v % 16 < 10 then Char.ofNat (48 + v % 16) else Char.ofNat (87 + v % 16))]⟩

/-- MAC address generated per call by `create_vm_with_cloudinit` from three
`random.randint(0, 255)` draws `r1 r2 r3` (each reduced mod 256 to the byte
the source formats). -/
def cloudinit_mac (r1 r2 r3 : Nat) : String :=
  "52:54:00:" ++ joinColon [hex2 (r1 % 256), hex2 (r2 % 256), hex2 (r3 % 256)]
where
  joinColon : List String → String
    | [] => ""
    | [s] => s
    | s :: t => s ++ ":" ++ joinColon t

/-- Descriptor that `create_vm_with_cloudinit` submits, with its random MAC
and the cloud-init ISO attached as CD-ROM. -/
def create_vm_with_cloudinit_descriptor (name : String) (cores memory : Nat)
    (resolved_path : String) (r1 r2 r3 : Nat) : DomainDescriptor :=
  _render_domain_xml name memory cores resolved_path (cloudinit_mac r1 r2 r3)
    (some ("/var/lib/libvirt/images/" ++ name ++ "-cloudinit.iso"))

/-- C10: every `create_vm` invocation, whatever the name, cores, memory and
resolved image path, submits a domain descriptor whose MAC address is the
fixed literal `52:54:00:0c:94:61`; hence any two VMs created through
`create_vm` get identical MAC addresses. The cloud-init create variant
instead derives its MAC from the per-call random draws, and different draws
yield different MACs. -/
theorem claim10_fixed_mac :
    (∀ (name : String) (cores memory : Nat) (path : String),
      (create_vm_descriptor name cores memory path).mac_address = "52:54:00:0c:94:61")
    ∧ (∀ (n1 : String) (c1 m1 : Nat) (p1 : String) (n2 : String) (c2 m2 : Nat) (p2 : String),
      (create_vm_descriptor n1 c1 m1 p1).mac_address
        = (create_vm_descriptor n2 c2 m2 p2).mac_address)
    ∧ (∃ r1 r2 r3 s1 s2 s3 : Nat,
      (create_vm_with_cloudinit_descriptor "a" 1 1 "p" r1 r2 r3).mac_address
        ≠ (create_vm_with_cloudinit_descriptor "a" 1 1 "p" s1 s2 s3).mac_address) :=
  ⟨fun _ _ _ _ => rfl,
   fun _ _ _ _ _ _ _ _ => rfl,
   ⟨0, 0, 0, 0, 0, 1, by decide⟩⟩

end DomXml

end LibvirtMcp
